/-
Verification of the performance-monitoring / retrain-reload control loop of the
house-price API (api.py, with the feature transform of
src/features/build_features.py).

Shallow embedding conventions:
* A pandas single-row DataFrame (or a parsed JSON object) is a `Row`: an
  association list from column names to cell values.  Machine floats are
  modelled as rationals; the transcendental helpers `np.expm1` / `np.log1p`,
  the fitted model's `predict`, date parsing and the string formatters are
  abstract function parameters.
* File contents are modelled at the level of their parsed values (the spec
  declares file-format parsing of tabular inputs out of scope): the canonical
  dataset file `data/interim/merged_data.csv` holds a `Dataset` (list of rows),
  the model artifact file holds an `Artifact`, the metrics file a
  `TrainerMetrics`, and the feedback directory a list of
  (file name, record) pairs.  "Byte-identical" is read as value identity.
* Fallible effects are driven by an explicit `Faults` record: each fault point
  that the code's `try/except` blocks can hit (pd.read_csv of the canonical
  dataset, to_csv of the temporary file, os.replace, the trainer, joblib.load,
  the `feature_names_in_` attribute access, the metrics json load) either
  succeeds or raises with a given message.  A failed write of the temporary
  file may leave a half-written file behind (`tempWriteLeavesFile`), matching
  `to_csv` creating/truncating the target before writing.
-/
import Mathlib

namespace PriceApi

/-- Value held in one cell of a DataFrame row / one field of a JSON object.
Numeric cells are rationals, the `date` column is a string. -/
inductive CellValue
  | num (q : ℚ)
  | str (s : String)
deriving DecidableEq

/-- A single DataFrame row (or parsed JSON object): ordered association list
from column names to cell values. -/
abbrev Row := List (String × CellValue)

/-- Look up a column in a row (first binding wins; dict keys are unique). -/
def rowLookup (c : String) : Row → Option CellValue
  | [] => none
  | (c', v) :: r => if c' = c then some v else rowLookup c r

/-- Numeric value of a column; pandas would raise on a missing column, but the
rows this embedding feeds to `engineer_features` always carry the columns it
reads, so a default of 0 is never observable. -/
def getNum (r : Row) (c : String) : ℚ :=
  match rowLookup c r with
  | some (CellValue.num q) => q
  | _ => 0

/-- `df[c] = v`: replace an existing column in place, else append it. -/
def setCol : Row → String → CellValue → Row
  | [], c, v => [(c, v)]
  | (c', v') :: r, c, v =>
      if c' = c then (c, v) :: r else (c', v') :: setCol r c v

/-- The feature engineering of src/features/build_features.py
(`engineer_features`), specialised to a single row, which is the only way the
API calls it.  `log1p` abstracts `np.log1p`; `parseYear` abstracts
`pd.to_datetime(df.date.str.split).dt.year` on the row's date string, `none`
meaning the parse raised (fallback analysis year 2015, no `date_dt` column). -/
def engineer_features (log1p : ℚ → ℚ) (parseYear : String → Option ℤ)
    (r : Row) : Row :=
  let r1 :=
    match rowLookup "price" r with
    | some _ => setCol r "log_price" (CellValue.num (log1p (getNum r "price")))
    | none => r
  let parsedYear : Option ℤ :=
    match rowLookup "date" r1 with
    | some (CellValue.str d) => parseYear d
    | _ => none
  let r2 :=
    match rowLookup "date" r1, parsedYear with
    | some (CellValue.str d), some _ => setCol r1 "date_dt" (CellValue.str d)
    | _, _ => r1
  let ay : ℚ :=
    match parsedYear with
    | some y => (y : ℚ)
    | none => 2015
  let r3 := setCol r2 "house_age" (CellValue.num (ay - getNum r2 "yr_built"))
  let r4 := setCol r3 "time_since_renovation"
    (CellValue.num
      (if getNum r3 "yr_renovated" = 0 then getNum r3 "house_age"
       else ay - getNum r3 "yr_renovated"))
  let r5 := setCol r4 "was_renovated"
    (CellValue.num (if 0 < getNum r4 "yr_renovated" then 1 else 0))
  let r6 := setCol r5 "total_rooms"
    (CellValue.num (getNum r5 "bedrooms" + getNum r5 "bathrooms"))
  setCol r6 "sqft_per_room"
    (CellValue.num
      (getNum r6 "sqft_living" / (getNum r6 "total_rooms" + 1 / 1000000)))

/-- The raw house record of the `HouseData` pydantic model (api.py lines
83-104), fields in declaration order.  `int`-typed fields are ℤ, `float`-typed
fields are ℚ. -/
structure HouseData where
  id : ℤ
  date : String
  bedrooms : ℤ
  bathrooms : ℚ
  sqft_living : ℤ
  sqft_lot : ℤ
  floors : ℚ
  waterfront : ℤ
  view : ℤ
  condition : ℤ
  grade : ℤ
  sqft_above : ℤ
  sqft_basement : ℤ
  yr_built : ℤ
  yr_renovated : ℤ
  zipcode : ℤ
  lat : ℚ
  long : ℚ
  Mean_Income : ℚ
  Education_Bachelors_or_Higher : ℚ
  Population_Density : ℚ
deriving DecidableEq

/-- Declared field names of `HouseData`, in pydantic declaration order. -/
def houseFieldNames : List String :=
  ["id", "date", "bedrooms", "bathrooms", "sqft_living", "sqft_lot", "floors",
   "waterfront", "view", "condition", "grade", "sqft_above", "sqft_basement",
   "yr_built", "yr_renovated", "zipcode", "lat", "long", "Mean_Income",
   "Education_Bachelors_or_Higher", "Population_Density"]

/-- `data.dict()`: the row built from a validated `HouseData`, keys in
declaration order. -/
def houseToRow (h : HouseData) : Row :=
  [("id", CellValue.num (h.id : ℚ)),
   ("date", CellValue.str h.date),
   ("bedrooms", CellValue.num (h.bedrooms : ℚ)),
   ("bathrooms", CellValue.num h.bathrooms),
   ("sqft_living", CellValue.num (h.sqft_living : ℚ)),
   ("sqft_lot", CellValue.num (h.sqft_lot : ℚ)),
   ("floors", CellValue.num h.floors),
   ("waterfront", CellValue.num (h.waterfront : ℚ)),
   ("view", CellValue.num (h.view : ℚ)),
   ("condition", CellValue.num (h.condition : ℚ)),
   ("grade", CellValue.num (h.grade : ℚ)),
   ("sqft_above", CellValue.num (h.sqft_above : ℚ)),
   ("sqft_basement", CellValue.num (h.sqft_basement : ℚ)),
   ("yr_built", CellValue.num (h.yr_built : ℚ)),
   ("yr_renovated", CellValue.num (h.yr_renovated : ℚ)),
   ("zipcode", CellValue.num (h.zipcode : ℚ)),
   ("lat", CellValue.num h.lat),
   ("long", CellValue.num h.long),
   ("Mean_Income", CellValue.num h.Mean_Income),
   ("Education_Bachelors_or_Higher",
     CellValue.num h.Education_Bachelors_or_Higher),
   ("Population_Density", CellValue.num h.Population_Density)]

/-- Read a rational-valued field during pydantic validation. -/
def fieldQ (r : Row) (c : String) : Option ℚ :=
  match rowLookup c r with
  | some (CellValue.num q) => some q
  | _ => none

/-- Read an integer-valued field during pydantic validation. -/
def fieldZ (r : Row) (c : String) : Option ℤ :=
  match rowLookup c r with
  | some (CellValue.num q) => if q.den = 1 then some q.num else none
  | _ => none

/-- Read a string-valued field during pydantic validation. -/
def fieldS (r : Row) (c : String) : Option String :=
  match rowLookup c r with
  | some (CellValue.str s) => some s
  | _ => none

/-- Pydantic validation of the request body against `HouseData`: each declared
field is read by name, fields not declared on the model are ignored (pydantic's
default `extra` behaviour); a missing or wrongly-typed declared field is a
validation error (`none`). -/
def parseHouseData (r : Row) : Option HouseData :=
  match fieldZ r "id", fieldS r "date", fieldZ r "bedrooms",
        fieldQ r "bathrooms", fieldZ r "sqft_living", fieldZ r "sqft_lot",
        fieldQ r "floors", fieldZ r "waterfront", fieldZ r "view",
        fieldZ r "condition", fieldZ r "grade", fieldZ r "sqft_above",
        fieldZ r "sqft_basement", fieldZ r "yr_built",
        fieldZ r "yr_renovated", fieldZ r "zipcode", fieldQ r "lat",
        fieldQ r "long", fieldQ r "Mean_Income",
        fieldQ r "Education_Bachelors_or_Higher",
        fieldQ r "Population_Density" with
  | some v1, some v2, some v3, some v4, some v5, some v6, some v7, some v8,
    some v9, some v10, some v11, some v12, some v13, some v14, some v15,
    some v16, some v17, some v18, some v19, some v20, some v21 =>
      some ⟨v1, v2, v3, v4, v5, v6, v7, v8, v9, v10, v11, v12, v13, v14, v15,
            v16, v17, v18, v19, v20, v21⟩
  | _, _, _, _, _, _, _, _, _, _, _, _, _, _, _, _, _, _, _, _, _ => none

/-- A feedback body (`FeedbackData`): a house record plus its ground truth. -/
structure FeedbackRecord where
  house : HouseData
  ground_truth_price : ℚ
deriving DecidableEq

/-- `data.dict()` of a `FeedbackData`: parent fields first, then
`ground_truth_price`. -/
def feedbackToRow (fb : FeedbackRecord) : Row :=
  houseToRow fb.house ++ [("ground_truth_price", CellValue.num fb.ground_truth_price)]

/-- The row a feedback record contributes to the augmented dataset:
`pd.DataFrame(feedback_data).rename(ground_truth_price -> price)`. -/
def datasetRow (fb : FeedbackRecord) : Row :=
  houseToRow fb.house ++ [("price", CellValue.num fb.ground_truth_price)]

/-- A fitted model artifact as the API sees it: an opaque identity for the
fitted weights (predictions are produced by the abstract parameter
`predictOf` applied to this identity) together with its
`feature_names_in_` schema. -/
structure Artifact where
  modelId : ℕ
  featureNames : List String
deriving DecidableEq

/-- The metrics dict produced by src/models/train_model.py and stored in
models/model_metrics.json. -/
structure TrainerMetrics where
  r2 : ℚ
  rmse_usd : ℚ
  mae_usd : ℚ
  mape_pct : ℚ
  mae_usd_formatted : String
deriving DecidableEq

/-- The in-memory `model_metrics` global: the loaded dict, the placeholder
written by `load_model_safely`'s exception handler, or the initial `{}`. -/
inductive MetricsDict
  | loaded (m : TrainerMetrics)
  | fallback
  | empty
deriving DecidableEq

/-- `model_metrics.get("mae_usd_formatted", "$ (Erro N/A)")`. -/
def MetricsDict.maeFormatted : MetricsDict → String
  | MetricsDict.loaded m => m.mae_usd_formatted
  | MetricsDict.fallback => "$ (Métricas não encontradas)"
  | MetricsDict.empty => "$ (Erro N/A)"

/-- Parsed content of the canonical dataset file. -/
abbrev Dataset := List Row

/-- Content of the temporary file `data/interim/temp_updated_merged_data.csv`:
either a completely written augmented dataset or the debris of a write that
raised partway. -/
inductive TempFile
  | complete (d : Dataset)
  | halfWritten
deriving DecidableEq

/-- The mutable state of the API process and of the files it touches. -/
structure ApiState where
  /-- the `model` global -/
  model : Option Artifact
  /-- the `model_features` global -/
  modelFeatures : List String
  /-- the `model_metrics` global -/
  modelMetrics : MetricsDict
  /-- content of models/model.joblib (`none` = missing/unreadable) -/
  modelFile : Option Artifact
  /-- content of models/model_metrics.json (`none` = missing/unreadable) -/
  metricsFile : Option TrainerMetrics
  /-- content of data/interim/merged_data.csv -/
  canonical : Dataset
  /-- content at data/interim/temp_updated_merged_data.csv, if present -/
  tempFile : Option TempFile
  /-- pending feedback files: (file name, parsed record) -/
  pending : List (String × FeedbackRecord)
  /-- files under data/feedback_local/archive -/
  archived : List (String × FeedbackRecord)
deriving DecidableEq

/-- Behaviour of `retrain_model()` (src/models/train_model.py `train`): on
success it writes the new artifact and metrics files and returns the metrics;
it may raise; or it may return `None` without raising (its early `return` when
the processed csv files are missing). -/
inductive TrainerOutcome
  | succeeds (newId : ℕ) (newSchema : List String) (m : TrainerMetrics)
  | raises (msg : String)
  | returnsNone
deriving DecidableEq

/-- Injected faults for one request, one per fallible operation; `some msg`
means the operation raises with message `msg`.  The finally-block restore
write, `os.remove`, and the archive renames are modelled as infallible: the
claims' fault taxonomy (DatasetIOError / TrainerFailure / ReloadFailure)
does not cover them, and the spec treats archive faults as best-effort and
non-fatal. -/
structure Faults where
  /-- `pd.read_csv('data/interim/merged_data.csv')` raises -/
  readCanonical : Option String
  /-- `updated_df.to_csv(temp_path)` raises -/
  tempWrite : Option String
  /-- a raising temp write leaves a half-written file at the temp path -/
  tempWriteLeavesFile : Bool
  /-- `os.replace(temp_path, 'data/interim/merged_data.csv')` raises -/
  replaceCanonical : Option String
  /-- behaviour of `retrain_model()` -/
  trainer : TrainerOutcome
  /-- `joblib.load(MODEL_PATH)` raises -/
  joblibLoad : Option String
  /-- the `model.feature_names_in_` attribute access raises -/
  featureNames : Option String
  /-- the metrics json open/load raises -/
  metricsLoad : Option String
deriving DecidableEq

/-- The exception handler of `load_model_safely` (api.py lines 53-59): set
`model_metrics` to the placeholder dict; report failure only when the `model`
global is `None` at that point. -/
def loadModelExcept (s : ApiState) : ApiState × Bool :=
  ({ s with modelMetrics := MetricsDict.fallback }, s.model.isSome)

/-- `load_model_safely` (api.py lines 39-59): sequentially assign the `model`,
`model_features` and `model_metrics` globals from the artifact and metrics
files; any exception partway falls into `loadModelExcept` with the
assignments made so far kept. -/
def load_model_safely (f : Faults) (s : ApiState) : ApiState × Bool :=
  match s.modelFile, f.joblibLoad with
  | some art, none =>
      let s1 := { s with model := some art }
      match f.featureNames with
      | some _ => loadModelExcept s1
      | none =>
          let s2 := { s1 with modelFeatures := art.featureNames }
          match s.metricsFile, f.metricsLoad with
          | some m, none =>
              ({ s2 with modelMetrics := MetricsDict.loaded m }, true)
          | _, _ => loadModelExcept s2
  | _, _ => loadModelExcept s

/-- `ERROR_THRESHOLD_MAPE` (api.py line 21). -/
def ERROR_THRESHOLD_MAPE : ℚ := 15 / 100

/-- `np.finfo(np.float64).eps = 2 ** -52`, the clamp sklearn's
`mean_absolute_percentage_error` applies to each `|y_true|` denominator. -/
def sklearnEps : ℚ := 1 / 2 ^ 52

/-- sklearn's `mean_absolute_percentage_error`:
`mean(|y_t - y_p| / max(|y_t|, eps))`. -/
def sklearnMape (yTrue yPred : List ℚ) : ℚ :=
  (List.zipWith (fun t p => |t - p| / max |t| sklearnEps) yTrue yPred).sum
    / (yTrue.length : ℚ)

/-- `df_processed.reindex(columns=schema).fillna(0)` flattened to the feature
vector fed to `model.predict`: schema columns in order, a column absent from
the row becoming 0, columns of the row outside the schema dropped. -/
def featureVector (schema : List String) (r : Row) : List ℚ :=
  schema.map (fun c => getNum r c)

/-- The full per-record prediction pipeline shared by `/predict` and
`/check-performance`: engineer features, reindex on the `model_features`
global, predict in log space, invert with `np.expm1`. -/
def pipelinePrice (predictOf : ℕ → List ℚ → ℚ) (expm1 log1p : ℚ → ℚ)
    (parseYear : String → Option ℤ) (s : ApiState) (a : Artifact)
    (r : Row) : ℚ :=
  expm1 (predictOf a.modelId
    (featureVector s.modelFeatures (engineer_features log1p parseYear r)))

/-- The aggregate error `/check-performance` computes over the pending
feedback: sklearn MAPE of the ground truths against the pipeline predictions
on each record's raw dict. -/
def currentMape (predictOf : ℕ → List ℚ → ℚ) (expm1 log1p : ℚ → ℚ)
    (parseYear : String → Option ℤ) (s : ApiState) (a : Artifact) : ℚ :=
  sklearnMape
    ((s.pending.map Prod.snd).map (fun fb => fb.ground_truth_price))
    ((s.pending.map Prod.snd).map
      (fun fb => pipelinePrice predictOf expm1 log1p parseYear s a
        (feedbackToRow fb)))

/-- Result of the `/predict` endpoint. -/
inductive PredictResult
  | ok (message : String) (predicted_price : ℚ) (predicted_price_usd : String)
      (confidence_margin_usd : String)
  | httpError (status : ℕ) (detail : String)
deriving DecidableEq

/-- `predict_price` (api.py lines 110-135): pydantic validation of the body,
503-style 500 when no model is loaded, else the prediction pipeline on
`data.dict()`; the confidence margin is read from the `model_metrics`
global. -/
def predict_price (predictOf : ℕ → List ℚ → ℚ) (expm1 log1p : ℚ → ℚ)
    (parseYear : String → Option ℤ) (formatMoney : ℚ → String)
    (s : ApiState) (body : Row) : PredictResult :=
  match parseHouseData body with
  | none => PredictResult.httpError 422 "validation error"
  | some data =>
      match s.model with
      | none =>
          PredictResult.httpError 500 "Modelo não carregado. Tente /retrain."
      | some a =>
          let price :=
            pipelinePrice predictOf expm1 log1p parseYear s a (houseToRow data)
          PredictResult.ok "Predição realizada com sucesso." price
            ("$" ++ formatMoney price) s.modelMetrics.maeFormatted

/-- Feedback file name `feedback_{timestamp}_{data.id}.json` (api.py line
143); `timestamp` is `pd.Timestamp.now().strftime` to whole seconds. -/
def feedbackFileName (timestamp : String) (fb : FeedbackRecord) : String :=
  "feedback_" ++ timestamp ++ "_" ++ toString fb.house.id ++ ".json"

/-- `open(file_name, 'w')` + `json.dump`: truncate an existing file of that
name, else create it. -/
def writeFeedbackFile (name : String) (fb : FeedbackRecord) :
    List (String × FeedbackRecord) → List (String × FeedbackRecord)
  | [] => [(name, fb)]
  | (n, r) :: rest =>
      if n = name then (name, fb) :: rest
      else (n, r) :: writeFeedbackFile name fb rest

/-- `receive_feedback` (api.py lines 138-151): write the record to the
pending directory under the timestamp-and-id name and acknowledge with the
file path. -/
def receive_feedback (timestamp : String) (fb : FeedbackRecord)
    (s : ApiState) : ApiState × String :=
  let name := feedbackFileName timestamp fb
  ({ s with pending := writeFeedbackFile name fb s.pending }, name)

/-- Value returned by `run_full_retrain_cycle`: the new metrics dict, Python
`None` (trainer returned `None` and the reload reported success), the
`{"error": ...}` dict, or an exception propagating out of the function. -/
inductive RetrainResult
  | ok (m : TrainerMetrics)
  | okNone
  | errorDict (msg : String)
  | raised (msg : String)
deriving DecidableEq

/-- Move every pending feedback file into the archive directory (api.py lines
256-260). -/
def archiveAll (s : ApiState) : ApiState :=
  { s with pending := [], archived := s.archived ++ s.pending }

/-- `run_full_retrain_cycle` (api.py lines 215-275).  Control flow of the
source, in order: read the canonical dataset (its own try/except, returning an
error dict); early error dict when no feedback file exists; build the
augmented dataset and write it to the temp path — this write sits outside the
inner try, so a raise here propagates and skips the finally; then the inner
try: atomically replace the canonical dataset, run the trainer, reload via
`load_model_safely`, on reported success archive the feedback; except returns
an error dict; finally always rewrites the canonical file from the pre-cycle
DataFrame and removes the temp file if present. -/
def run_full_retrain_cycle (f : Faults) (s : ApiState) :
    ApiState × RetrainResult :=
  match f.readCanonical with
  | some _ => (s, RetrainResult.errorDict "Falha ao carregar dados originais.")
  | none =>
    let original := s.canonical
    if s.pending = [] then
      (s, RetrainResult.errorDict "Nenhum feedback para treinar.")
    else
      let updated := original ++ s.pending.map (fun p => datasetRow p.2)
      match f.tempWrite with
      | some msg =>
          (if f.tempWriteLeavesFile
            then { s with tempFile := some TempFile.halfWritten } else s,
           RetrainResult.raised msg)
      | none =>
        let s1 := { s with tempFile := some (TempFile.complete updated) }
        let afterTry : ApiState × RetrainResult :=
          match f.replaceCanonical with
          | some msg => (s1, RetrainResult.errorDict msg)
          | none =>
            let s2 := { s1 with canonical := updated, tempFile := none }
            match f.trainer with
            | TrainerOutcome.raises msg => (s2, RetrainResult.errorDict msg)
            | TrainerOutcome.returnsNone =>
                let load3 := load_model_safely f s2
                if load3.2 then (archiveAll load3.1, RetrainResult.okNone)
                else (load3.1, RetrainResult.errorDict "Falha ao recarregar o modelo.")
            | TrainerOutcome.succeeds newId newSchema m =>
                let s3 := { s2 with modelFile := some (Artifact.mk newId newSchema),
                                    metricsFile := some m }
                let load4 := load_model_safely f s3
                if load4.2 then (archiveAll load4.1, RetrainResult.ok m)
                else (load4.1, RetrainResult.errorDict "Falha ao recarregar o modelo.")
        ({ afterTry.1 with canonical := original, tempFile := none },
         afterTry.2)

/-- Response of `/check-performance`.  `alreadyRunning` is the fail-fast
error the spec's interface declares for a trigger arriving while a cycle is
in flight; the theorems show the code never produces it. -/
inductive CheckResponse
  | alreadyRunning
  | ok (retrain_triggered : Bool) (message : String)
      (current_mape_pct : Option String) (new_metrics : Option RetrainResult)
  | httpError (status : ℕ) (detail : String)
deriving DecidableEq

/-- `check_model_performance` (api.py lines 154-212): stable responses when
no feedback is pending; 500 when predicting with no model loaded (the
AttributeError on `None.predict` is caught by the outer except); otherwise
compute the sklearn MAPE over the pending records and, strictly above the
threshold, run the synchronous retrain cycle and return its result in the
`new_metrics` field of a `retrain_triggered=True` response; a raise inside
the cycle is caught by the outer except as a 500.  Feedback files that fail
to parse are skipped with a warning at the file layer (non-fatal, per the
spec); the embedding models the pending partition as already-parsed
records. -/
def check_model_performance (predictOf : ℕ → List ℚ → ℚ)
    (expm1 log1p : ℚ → ℚ) (parseYear : String → Option ℤ)
    (formatPct : ℚ → String) (f : Faults) (s : ApiState) :
    ApiState × CheckResponse :=
  if s.pending = [] then
    (s, CheckResponse.ok false "Nenhum dado de feedback para checar." none none)
  else
    match s.model with
    | none =>
        (s, CheckResponse.httpError 500
          "Erro ao calcular performance: 'NoneType' object has no attribute 'predict'")
    | some a =>
        let mape := currentMape predictOf expm1 log1p parseYear s a
        if ERROR_THRESHOLD_MAPE < mape then
          let cycle := run_full_retrain_cycle f s
          match cycle.2 with
          | RetrainResult.raised msg =>
              (cycle.1, CheckResponse.httpError 500
                ("Erro ao calcular performance: " ++ msg))
          | r =>
              (cycle.1, CheckResponse.ok true
                ("Erro (MAPE) de " ++ formatPct mape
                  ++ " excedeu o limite. Retreino CONCLUÍDO!")
                (some (formatPct mape)) (some r))
        else
          (s, CheckResponse.ok false
            ("Erro (MAPE) de " ++ formatPct mape
              ++ " está dentro do limite. Performance estável.")
            (some (formatPct mape)) none)

/-! ### Concrete fixtures used to evaluate the embedding -/

/-- A concrete raw house record. -/
def sampleHouse : HouseData :=
  ⟨1, "20141013T000000", 3, 2, 1180, 5650, 1, 0, 0, 3, 7, 1180, 0, 1955, 0,
   98178, 47, -122, 50000, 1, 100⟩

/-- A concrete feedback record for `sampleHouse`. -/
def sampleFeedback : FeedbackRecord := ⟨sampleHouse, 100⟩

/-- The artifact active before a retrain cycle. -/
def oldArtifact : Artifact := ⟨0, ["sqft_living"]⟩

/-- The artifact a successful trainer run produces. -/
def newArtifact : Artifact := ⟨1, ["sqft_living", "grade"]⟩

/-- Metrics stored alongside `oldArtifact`. -/
def oldMetrics : TrainerMetrics := ⟨1, 1000, 800, 12, "$800.00"⟩

/-- Metrics the trainer reports for `newArtifact`. -/
def retrainedMetrics : TrainerMetrics := ⟨1, 900, 700, 10, "$700.00"⟩

/-- A healthy process state: old artifact loaded and on disk, one pending
feedback record, nothing archived, no temp file. -/
def baseState : ApiState :=
  { model := some oldArtifact
    modelFeatures := oldArtifact.featureNames
    modelMetrics := MetricsDict.loaded oldMetrics
    modelFile := some oldArtifact
    metricsFile := some oldMetrics
    canonical := [[("sqft_living", CellValue.num 1180),
                   ("price", CellValue.num 221900)]]
    tempFile := none
    pending := [("feedback_20250101000000_1.json", sampleFeedback)]
    archived := [] }

/-- No injected fault anywhere; the trainer succeeds with `newArtifact` and
`retrainedMetrics`. -/
def noFaults : Faults :=
  { readCanonical := none
    tempWrite := none
    tempWriteLeavesFile := false
    replaceCanonical := none
    trainer := TrainerOutcome.succeeds newArtifact.modelId
      newArtifact.featureNames retrainedMetrics
    joblibLoad := none
    featureNames := none
    metricsLoad := none }

/-- Writing the temporary augmented file raises and leaves a half-written
file behind. -/
def tempWriteCrash : Faults :=
  { noFaults with tempWrite := some "No space left on device",
                  tempWriteLeavesFile := true }

/-- The trainer succeeds but `joblib.load` of the new artifact raises. -/
def reloadCrash : Faults :=
  { noFaults with joblibLoad := some "invalid artifact" }

/-- Concrete instantiations of the abstract numeric environment, used when a
theorem is evaluated at a concrete input. -/
def cPredict : ℕ → List ℚ → ℚ := fun _ _ => 0

/-- Concrete stand-in for `np.expm1` at concrete inputs. -/
def cExpm1 : ℚ → ℚ := fun q => q

/-- Concrete stand-in for `np.log1p` at concrete inputs. -/
def cLog1p : ℚ → ℚ := fun q => q

/-- Concrete stand-in for the date-year parse at concrete inputs. -/
def cParseYear : String → Option ℤ := fun _ => some 2014

/-- Concrete stand-in for the string formatters at concrete inputs. -/
def cFormat : ℚ → String := fun _ => "fmt"

/-! ### Helper lemmas -/

/-- `load_model_safely` touches only the three in-memory globals: the
feedback partitions are untouched. -/
theorem load_model_safely_pending (f : Faults) (s : ApiState) :
    (load_model_safely f s).1.pending = s.pending := by
  unfold load_model_safely loadModelExcept
  cases hmf : s.modelFile <;> cases hjl : f.joblibLoad <;>
    cases hfn : f.featureNames <;> cases hms : s.metricsFile <;>
    cases hml : f.metricsLoad <;> simp

/-- `load_model_safely` does not touch the archive partition. -/
theorem load_model_safely_archived (f : Faults) (s : ApiState) :
    (load_model_safely f s).1.archived = s.archived := by
  unfold load_model_safely loadModelExcept
  cases hmf : s.modelFile <;> cases hjl : f.joblibLoad <;>
    cases hfn : f.featureNames <;> cases hms : s.metricsFile <;>
    cases hml : f.metricsLoad <;> simp

/-- `load_model_safely` does not touch the canonical dataset or the temp
file. -/
theorem load_model_safely_dataset (f : Faults) (s : ApiState) :
    (load_model_safely f s).1.canonical = s.canonical ∧
    (load_model_safely f s).1.tempFile = s.tempFile := by
  unfold load_model_safely loadModelExcept
  cases hmf : s.modelFile <;> cases hjl : f.joblibLoad <;>
    cases hfn : f.featureNames <;> cases hms : s.metricsFile <;>
    cases hml : f.metricsLoad <;> simp

/-- Every run of the retrain cycle either leaves both feedback partitions
exactly as they were and returns an error dict or an exception, or archives
exactly the pending records and returns the committed result (`new_metrics`
or Python `None`). -/
theorem run_full_retrain_cycle_archive_dichotomy (f : Faults) (s : ApiState) :
    ((run_full_retrain_cycle f s).1.pending = s.pending ∧
      (run_full_retrain_cycle f s).1.archived = s.archived ∧
      (∀ m, (run_full_retrain_cycle f s).2 ≠ RetrainResult.ok m) ∧
      (run_full_retrain_cycle f s).2 ≠ RetrainResult.okNone) ∨
    ((run_full_retrain_cycle f s).1.pending = [] ∧
      (run_full_retrain_cycle f s).1.archived = s.archived ++ s.pending ∧
      ((∃ m, (run_full_retrain_cycle f s).2 = RetrainResult.ok m) ∨
        (run_full_retrain_cycle f s).2 = RetrainResult.okNone)) := by
  obtain ⟨rc, tw, twl, repl, tr, jl, fn, ml⟩ := f
  cases rc with
  | some m => left; simp [run_full_retrain_cycle]
  | none =>
    by_cases hp : s.pending = []
    · left; simp [run_full_retrain_cycle, hp]
    · cases tw with
      | some m => left; cases twl <;> simp [run_full_retrain_cycle, hp]
      | none =>
        cases repl with
        | some m => left; simp [run_full_retrain_cycle, hp]
        | none =>
          cases tr with
          | raises m => left; simp [run_full_retrain_cycle, hp]
          | returnsNone =>
            simp only [run_full_retrain_cycle, if_neg hp]
            split
            · right
              simp [archiveAll, load_model_safely_pending,
                load_model_safely_archived]
            · left
              simp [load_model_safely_pending, load_model_safely_archived]
          | succeeds nid nsch m =>
            simp only [run_full_retrain_cycle, if_neg hp]
            split
            · right
              simp [archiveAll, load_model_safely_pending,
                load_model_safely_archived]
            · left
              simp [load_model_safely_pending, load_model_safely_archived]

/-- The retrain cycle leaves the canonical dataset's content unchanged on
every path: the early error returns do not touch it, a raising temp write
happens before it is replaced, and every path through the inner try runs the
finally block, which rewrites it from the pre-cycle DataFrame. -/
theorem run_cycle_keeps_canonical (f : Faults) (s : ApiState) :
    (run_full_retrain_cycle f s).1.canonical = s.canonical := by
  obtain ⟨rc, tw, twl, repl, tr, jl, fn, ml⟩ := f
  cases rc with
  | some m => rfl
  | none =>
    by_cases hp : s.pending = []
    · simp [run_full_retrain_cycle, hp]
    · cases tw with
      | some m => cases twl <;> simp [run_full_retrain_cycle, hp]
      | none => simp [run_full_retrain_cycle, hp]

/-- When the temp write does not raise, the cycle ends with no file at the
temp path (assuming none was there before the cycle). -/
theorem run_cycle_removes_temp (f : Faults) (s : ApiState)
    (h0 : s.tempFile = none) (h1 : f.tempWrite = none) :
    (run_full_retrain_cycle f s).1.tempFile = none := by
  obtain ⟨rc, tw, twl, repl, tr, jl, fn, ml⟩ := f
  cases tw with
  | some m => cases h1
  | none =>
    cases rc with
    | some m => exact h0
    | none =>
      by_cases hp : s.pending = []
      · simp [run_full_retrain_cycle, hp, h0]
      · simp [run_full_retrain_cycle, hp]

/-- When the trainer raises, the cycle changes nothing but possibly the temp
file: the in-memory triple, both artifact files, and both feedback
partitions are exactly as before. -/
theorem run_cycle_trainer_raises_frame (f : Faults) (s : ApiState)
    (msg : String) (htr : f.trainer = TrainerOutcome.raises msg) :
    (run_full_retrain_cycle f s).1.model = s.model ∧
    (run_full_retrain_cycle f s).1.modelFeatures = s.modelFeatures ∧
    (run_full_retrain_cycle f s).1.modelMetrics = s.modelMetrics ∧
    (run_full_retrain_cycle f s).1.modelFile = s.modelFile ∧
    (run_full_retrain_cycle f s).1.metricsFile = s.metricsFile ∧
    (run_full_retrain_cycle f s).1.pending = s.pending ∧
    (run_full_retrain_cycle f s).1.archived = s.archived := by
  obtain ⟨rc, tw, twl, repl, tr, jl, fn, ml⟩ := f
  cases tr with
  | returnsNone => simp at htr
  | succeeds a b c => simp at htr
  | raises m =>
    cases rc with
    | some m2 => exact ⟨rfl, rfl, rfl, rfl, rfl, rfl, rfl⟩
    | none =>
      by_cases hp : s.pending = []
      · simp [run_full_retrain_cycle, hp]
      · cases tw with
        | some m2 => cases twl <;> simp [run_full_retrain_cycle, hp]
        | none =>
          cases repl with
          | some m2 => simp [run_full_retrain_cycle, hp]
          | none => simp [run_full_retrain_cycle, hp]

/-- The cycle's exception (`RetrainResult.raised`) can only come from the
temp write, the one fallible operation outside its try/except blocks. -/
theorem run_cycle_not_raised (f : Faults) (s : ApiState)
    (h1 : f.tempWrite = none) :
    ∀ m, (run_full_retrain_cycle f s).2 ≠ RetrainResult.raised m := by
  obtain ⟨rc, tw, twl, repl, tr, jl, fn, ml⟩ := f
  cases tw with
  | some m => cases h1
  | none =>
    intro m
    cases rc with
    | some m2 => simp [run_full_retrain_cycle]
    | none =>
      by_cases hp : s.pending = []
      · simp [run_full_retrain_cycle, hp]
      · cases repl with
        | some m2 => simp [run_full_retrain_cycle, hp]
        | none =>
          cases tr with
          | raises m2 => simp [run_full_retrain_cycle, hp]
          | returnsNone =>
            simp only [run_full_retrain_cycle, if_neg hp]
            split <;> simp
          | succeeds a b c =>
            simp only [run_full_retrain_cycle, if_neg hp]
            split <;> simp

/-- Under any injected raising fault — canonical read, temp write, canonical
replace, or trainer — the cycle returns an error dict or lets the exception
propagate; it never returns a committed result. -/
theorem run_cycle_fault_result (f : Faults) (s : ApiState)
    (hf : f.readCanonical ≠ none ∨ f.tempWrite ≠ none ∨
      f.replaceCanonical ≠ none ∨ ∃ m, f.trainer = TrainerOutcome.raises m) :
    (∃ e, (run_full_retrain_cycle f s).2 = RetrainResult.errorDict e) ∨
    (∃ e, (run_full_retrain_cycle f s).2 = RetrainResult.raised e) := by
  obtain ⟨rc, tw, twl, repl, tr, jl, fn, ml⟩ := f
  cases rc with
  | some m => exact Or.inl ⟨_, rfl⟩
  | none =>
    by_cases hp : s.pending = []
    · left
      simp [run_full_retrain_cycle, hp]
    · cases tw with
      | some m =>
        right
        cases twl <;> simp [run_full_retrain_cycle, hp]
      | none =>
        cases repl with
        | some m =>
          left
          simp [run_full_retrain_cycle, hp]
        | none =>
          cases tr with
          | raises m => left; simp [run_full_retrain_cycle, hp]
          | returnsNone =>
            rcases hf with h | h | h | ⟨m, h⟩ <;> simp at h
          | succeeds a b c =>
            rcases hf with h | h | h | ⟨m, h⟩ <;> simp at h

/-! ### C1 — dataset round-trip and temp-file cleanup -/

/-- C1 (amended): for every retrain cycle, whatever the injected faults and
outcome, the canonical dataset's content at cycle end is identical to its
pre-cycle content; and the temporary augmented file is removed whenever the
write of the temporary file itself did not raise (a raising temp write
propagates out of the function before the try/finally is entered, so its
half-written file can survive the cycle). -/
theorem run_full_retrain_cycle_restores_dataset (f : Faults) (s : ApiState)
    (h0 : s.tempFile = none) :
    (run_full_retrain_cycle f s).1.canonical = s.canonical ∧
    (f.tempWrite = none → (run_full_retrain_cycle f s).1.tempFile = none) :=
  ⟨run_cycle_keeps_canonical f s, fun h1 => run_cycle_removes_temp f s h0 h1⟩

/-- C1 witness: the fault-free cycle on the concrete base state restores the
canonical dataset and removes the temporary file. -/
theorem run_full_retrain_cycle_restores_dataset_witness :
    (run_full_retrain_cycle noFaults baseState).1.canonical
        = baseState.canonical ∧
    (noFaults.tempWrite = none →
      (run_full_retrain_cycle noFaults baseState).1.tempFile = none) :=
  run_full_retrain_cycle_restores_dataset noFaults baseState (by decide)

/-- C1 counterexample: when the write of the temporary augmented file raises
partway, the cycle ends with the exception propagating (the caller reports a
plain error), the canonical dataset untouched — but the half-written
temporary file is NOT removed, contradicting the claim that the temporary
file is removed at the end of every cycle. -/
theorem run_full_retrain_cycle_temp_file_survives :
    (run_full_retrain_cycle tempWriteCrash baseState).2
        = RetrainResult.raised "No space left on device" ∧
    (run_full_retrain_cycle tempWriteCrash baseState).1.tempFile
        = some TempFile.halfWritten ∧
    (run_full_retrain_cycle tempWriteCrash baseState).1.canonical
        = baseState.canonical :=
  ⟨rfl, rfl, rfl⟩

/-! ### C2 — atomicity under trainer failure -/

/-- The trainer raises during the cycle. -/
def trainerCrash : Faults :=
  { noFaults with trainer := TrainerOutcome.raises "xgboost crashed" }

/-- The trainer returns `None` without raising (its early return when its
input files are missing). -/
def trainerSoftFail : Faults :=
  { noFaults with trainer := TrainerOutcome.returnsNone }

/-- C2 (amended): if the Trainer RAISES during a retrain cycle, then at the
end of the `checkPerformance` call the canonical dataset's content, the
in-memory model/schema/metrics triple, both artifact files and both feedback
partitions are unchanged.  (A Trainer that signals failure by returning
`None` without raising is exempt: the code then proceeds to reload and
archive, see the counterexample.) -/
theorem check_trainer_raise_atomicity (predictOf : ℕ → List ℚ → ℚ)
    (expm1 log1p : ℚ → ℚ) (parseYear : String → Option ℤ)
    (formatPct : ℚ → String) (f : Faults) (s : ApiState) (msg : String)
    (htr : f.trainer = TrainerOutcome.raises msg) :
    (check_model_performance predictOf expm1 log1p parseYear formatPct f s).1.canonical = s.canonical ∧
    (check_model_performance predictOf expm1 log1p parseYear formatPct f s).1.model = s.model ∧
    (check_model_performance predictOf expm1 log1p parseYear formatPct f s).1.modelFeatures = s.modelFeatures ∧
    (check_model_performance predictOf expm1 log1p parseYear formatPct f s).1.modelMetrics = s.modelMetrics ∧
    (check_model_performance predictOf expm1 log1p parseYear formatPct f s).1.modelFile = s.modelFile ∧
    (check_model_performance predictOf expm1 log1p parseYear formatPct f s).1.metricsFile = s.metricsFile ∧
    (check_model_performance predictOf expm1 log1p parseYear formatPct f s).1.pending = s.pending ∧
    (check_model_performance predictOf expm1 log1p parseYear formatPct f s).1.archived = s.archived := by
  have hcan := run_cycle_keeps_canonical f s
  obtain ⟨h1, h2, h3, h4, h5, h6, h7⟩ :=
    run_cycle_trainer_raises_frame f s msg htr
  unfold check_model_performance
  by_cases hp : s.pending = []
  · rw [if_pos hp]
    exact ⟨rfl, rfl, rfl, rfl, rfl, rfl, rfl, rfl⟩
  · rw [if_neg hp]
    split
    · exact ⟨rfl, rfl, rfl, rfl, rfl, rfl, rfl, rfl⟩
    · dsimp only
      split
      · split <;> exact ⟨hcan, h1, h2, h3, h4, h5, h6, h7⟩
      · exact ⟨rfl, rfl, rfl, rfl, rfl, rfl, rfl, rfl⟩

/-- C2 witness: the concrete trainer-raise run on the base state changes
nothing observable. -/
theorem check_trainer_raise_atomicity_witness :
    (check_model_performance cPredict cExpm1 cLog1p cParseYear cFormat trainerCrash baseState).1.canonical = baseState.canonical ∧
    (check_model_performance cPredict cExpm1 cLog1p cParseYear cFormat trainerCrash baseState).1.model = baseState.model ∧
    (check_model_performance cPredict cExpm1 cLog1p cParseYear cFormat trainerCrash baseState).1.modelFeatures = baseState.modelFeatures ∧
    (check_model_performance cPredict cExpm1 cLog1p cParseYear cFormat trainerCrash baseState).1.modelMetrics = baseState.modelMetrics ∧
    (check_model_performance cPredict cExpm1 cLog1p cParseYear cFormat trainerCrash baseState).1.modelFile = baseState.modelFile ∧
    (check_model_performance cPredict cExpm1 cLog1p cParseYear cFormat trainerCrash baseState).1.metricsFile = baseState.metricsFile ∧
    (check_model_performance cPredict cExpm1 cLog1p cParseYear cFormat trainerCrash baseState).1.pending = baseState.pending ∧
    (check_model_performance cPredict cExpm1 cLog1p cParseYear cFormat trainerCrash baseState).1.archived = baseState.archived :=
  check_trainer_raise_atomicity cPredict cExpm1 cLog1p cParseYear cFormat
    trainerCrash baseState "xgboost crashed" rfl

/-- C2 counterexample: a Trainer that returns failure without raising does
NOT leave the archive untouched — the cycle reloads the old artifact,
reports success, archives the pending record, and returns Python `None` as
the new metrics inside a `retrain_triggered=true` response. -/
theorem feedback_archived_when_trainer_returns_none :
    (check_model_performance cPredict cExpm1 cLog1p cParseYear cFormat
        trainerSoftFail baseState).1.archived
      = [("feedback_20250101000000_1.json", sampleFeedback)] ∧
    (check_model_performance cPredict cExpm1 cLog1p cParseYear cFormat
        trainerSoftFail baseState).2
      = CheckResponse.ok true
          "Erro (MAPE) de fmt excedeu o limite. Retreino CONCLUÍDO!"
          (some "fmt") (some RetrainResult.okNone) := by
  norm_num [check_model_performance, run_full_retrain_cycle, load_model_safely,
    loadModelExcept, archiveAll, currentMape, sklearnMape, sklearnEps,
    pipelinePrice, featureVector, engineer_features, feedbackToRow, houseToRow,
    datasetRow, sampleFeedback, sampleHouse, baseState, oldArtifact,
    newArtifact, oldMetrics, retrainedMetrics, trainerSoftFail, noFaults,
    getNum, rowLookup, setCol, cPredict, cExpm1, cLog1p, cParseYear, cFormat,
    ERROR_THRESHOLD_MAPE]
  rfl

/-! ### C3 — structured fault reporting -/

/-- C3 (amended): every raising fault inside a retrain cycle — a
`DatasetIOError` on the canonical read, on the temp write or on the replace,
or a `TrainerFailure` — aborts the cycle: at the end of `checkPerformance`
the canonical dataset equals its pre-call content and no feedback record has
moved; but the fault is surfaced either as an HTTP 500 (temp-write fault) or
embedded as an `error` object inside the `new_metrics` field of a
`retrain_triggered=true` success response — whenever the response reports a
triggered retrain, its `new_metrics` is the error dict, never committed
metrics. -/
theorem check_fault_reporting (predictOf : ℕ → List ℚ → ℚ)
    (expm1 log1p : ℚ → ℚ) (parseYear : String → Option ℤ)
    (formatPct : ℚ → String) (f : Faults) (s : ApiState)
    (hf : f.readCanonical ≠ none ∨ f.tempWrite ≠ none ∨
      f.replaceCanonical ≠ none ∨ ∃ m, f.trainer = TrainerOutcome.raises m) :
    (check_model_performance predictOf expm1 log1p parseYear formatPct f s).1.canonical = s.canonical ∧
    (check_model_performance predictOf expm1 log1p parseYear formatPct f s).1.pending = s.pending ∧
    (check_model_performance predictOf expm1 log1p parseYear formatPct f s).1.archived = s.archived ∧
    (∀ msg pct nm,
      (check_model_performance predictOf expm1 log1p parseYear formatPct f s).2
        = CheckResponse.ok true msg pct nm →
      ∃ e, nm = some (RetrainResult.errorDict e)) := by
  have hcan := run_cycle_keeps_canonical f s
  have hfres := run_cycle_fault_result f s hf
  have hpend : (run_full_retrain_cycle f s).1.pending = s.pending ∧
      (run_full_retrain_cycle f s).1.archived = s.archived := by
    rcases run_full_retrain_cycle_archive_dichotomy f s with
      ⟨h1, h2, _, _⟩ | ⟨h1, h2, hok⟩
    · exact ⟨h1, h2⟩
    · exfalso
      rcases hfres with ⟨e, he⟩ | ⟨e, he⟩ <;>
        rcases hok with ⟨m, hm⟩ | hm <;> simp_all
  unfold check_model_performance
  by_cases hp : s.pending = []
  · rw [if_pos hp]
    exact ⟨rfl, rfl, rfl, fun msg pct nm h => by simp at h⟩
  · rw [if_neg hp]
    split
    · exact ⟨rfl, rfl, rfl, fun msg pct nm h => by simp at h⟩
    · dsimp only
      split
      · rcases hfres with ⟨e, he⟩ | ⟨e, he⟩ <;> rw [he]
        · exact ⟨hcan, hpend.1, hpend.2,
            fun msg pct nm h => ⟨e, by injection h with hb hm hp2 hn; exact hn.symm⟩⟩
        · exact ⟨hcan, hpend.1, hpend.2, fun msg pct nm h => by simp at h⟩
      · exact ⟨rfl, rfl, rfl, fun msg pct nm h => by simp at h⟩

/-- C3 witness: the concrete trainer-raise run keeps the dataset and the
feedback partitions, and its triggered response carries the error dict. -/
theorem check_fault_reporting_witness :
    (check_model_performance cPredict cExpm1 cLog1p cParseYear cFormat trainerCrash baseState).1.canonical = baseState.canonical ∧
    (check_model_performance cPredict cExpm1 cLog1p cParseYear cFormat trainerCrash baseState).1.pending = baseState.pending ∧
    (check_model_performance cPredict cExpm1 cLog1p cParseYear cFormat trainerCrash baseState).1.archived = baseState.archived ∧
    (∀ msg pct nm,
      (check_model_performance cPredict cExpm1 cLog1p cParseYear cFormat trainerCrash baseState).2
        = CheckResponse.ok true msg pct nm →
      ∃ e, nm = some (RetrainResult.errorDict e)) :=
  check_fault_reporting cPredict cExpm1 cLog1p cParseYear cFormat
    trainerCrash baseState
    (Or.inr (Or.inr (Or.inr ⟨"xgboost crashed", rfl⟩)))

/-- C3 counterexample: the trainer raises, yet `checkPerformance` answers
with a retrain_triggered=true success body whose message says the retrain
COMPLETED and whose `new_metrics` field holds the error dict — not with a
top-level structured error. -/
theorem retrain_error_reported_as_success :
    (check_model_performance cPredict cExpm1 cLog1p cParseYear cFormat
        trainerCrash baseState).2
      = CheckResponse.ok true
          "Erro (MAPE) de fmt excedeu o limite. Retreino CONCLUÍDO!"
          (some "fmt") (some (RetrainResult.errorDict "xgboost crashed")) := by
  norm_num [check_model_performance, run_full_retrain_cycle, currentMape,
    sklearnMape, sklearnEps, pipelinePrice, featureVector, engineer_features,
    feedbackToRow, houseToRow, datasetRow, sampleFeedback, sampleHouse,
    baseState, oldArtifact, newArtifact, oldMetrics, retrainedMetrics,
    trainerCrash, noFaults, getNum, rowLookup, setCol, cPredict, cExpm1,
    cLog1p, cParseYear, cFormat, ERROR_THRESHOLD_MAPE]
  rfl

/-! ### C4 — reload is not an atomic triple swap -/

/-- The `feature_names_in_` attribute access raises (e.g. the artifact file
deserialises to an object without that attribute). -/
def schemaAttrCrash : Faults :=
  { noFaults with featureNames := some "AttributeError" }

/-- Process state mid-cycle: the old artifact is active in memory, the new
artifact and metrics have just been written to disk by the trainer. -/
def staleSchemaState : ApiState :=
  { baseState with modelFile := some newArtifact,
                   metricsFile := some retrainedMetrics }

/-- C4 (amended): `load_model_safely` replaces the active triple
field-by-field, not atomically.  All three parts come from the new version
only when the artifact read, the schema attribute access and the metrics
read all succeed; when the artifact read fails the previous model and schema
are kept but the metrics are overwritten with the placeholder; when the
schema attribute access fails the new weights end up paired with the
previous schema and the placeholder metrics; and the call reports success
precisely when some model — old or new — is in memory afterwards. -/
theorem load_model_safely_not_atomic (f : Faults) (s : ApiState) :
    ((load_model_safely f s).2 = true ↔
      ((load_model_safely f s).1.model).isSome = true) ∧
    (∀ a m, s.modelFile = some a → s.metricsFile = some m →
      f.joblibLoad = none → f.featureNames = none → f.metricsLoad = none →
      load_model_safely f s
        = ({ s with
              model := some a
              modelFeatures := a.featureNames
              modelMetrics := MetricsDict.loaded m }, true)) ∧
    ((f.joblibLoad ≠ none ∨ s.modelFile = none) →
      (load_model_safely f s).1
        = { s with modelMetrics := MetricsDict.fallback }) ∧
    (∀ a, s.modelFile = some a → f.joblibLoad = none →
      f.featureNames ≠ none →
      (load_model_safely f s).1
        = { s with
            model := some a
            modelMetrics := MetricsDict.fallback }) := by
  obtain ⟨rc, tw, twl, repl, tr, jl, fn, ml⟩ := f
  cases hmf : s.modelFile <;> cases jl <;> cases fn <;>
    cases hms : s.metricsFile <;> cases ml <;>
    simp [load_model_safely, loadModelExcept, hmf, hms]

/-- C4 counterexample: with the old model active and the new artifact on
disk, a failing schema attribute read leaves the service with the NEW
weights, the OLD schema and the placeholder metrics — and the load call
still reports success.  A reader now observes exactly the mix of new weights
with the old schema that the claim says can never be observed. -/
theorem load_reports_success_with_torn_state :
    (load_model_safely schemaAttrCrash staleSchemaState).2 = true ∧
    (load_model_safely schemaAttrCrash staleSchemaState).1.model
        = some newArtifact ∧
    (load_model_safely schemaAttrCrash staleSchemaState).1.modelFeatures
        = oldArtifact.featureNames ∧
    oldArtifact.featureNames ≠ newArtifact.featureNames ∧
    (load_model_safely schemaAttrCrash staleSchemaState).1.modelMetrics
        = MetricsDict.fallback ∧
    MetricsDict.fallback ≠ MetricsDict.loaded retrainedMetrics :=
  ⟨rfl, rfl, rfl, by decide, rfl, by simp⟩

/-! ### C5 — no single-flight guard, no AlreadyRunning -/

/-- C5 support: `check_model_performance` has no single-flight guard and no
code path producing the `AlreadyRunning` error the spec's interface
declares: whatever the state and faults, its response is never
`alreadyRunning`.  (The concurrency half of the claim — two overlapping
calls each running a full cycle — is outside this sequential embedding.) -/
theorem check_never_already_running (predictOf : ℕ → List ℚ → ℚ)
    (expm1 log1p : ℚ → ℚ) (parseYear : String → Option ℤ)
    (formatPct : ℚ → String) (f : Faults) (s : ApiState) :
    (check_model_performance predictOf expm1 log1p parseYear formatPct f s).2
      ≠ CheckResponse.alreadyRunning := by
  unfold check_model_performance
  by_cases hp : s.pending = []
  · rw [if_pos hp]; simp
  · rw [if_neg hp]
    split
    · simp
    · dsimp only
      split
      · split <;> simp
      · simp

/-! ### C6 — stable branches perform no dataset mutation -/

/-- Process state with no pending feedback. -/
def idleState : ApiState := { baseState with pending := [] }

/-- C6: when no feedback is pending, or the aggregate MAPE over pending
feedback is ≤ the threshold, `checkPerformance` returns
`retrain_triggered=false` and leaves the whole process state — in
particular the canonical dataset — untouched. -/
theorem check_stable_keeps_dataset (predictOf : ℕ → List ℚ → ℚ)
    (expm1 log1p : ℚ → ℚ) (parseYear : String → Option ℤ)
    (formatPct : ℚ → String) (f : Faults) (s : ApiState)
    (h : s.pending = [] ∨ ∃ a, s.model = some a ∧
      currentMape predictOf expm1 log1p parseYear s a ≤ ERROR_THRESHOLD_MAPE) :
    (check_model_performance predictOf expm1 log1p parseYear formatPct f s).1
        = s ∧
    ∃ msg pct,
      (check_model_performance predictOf expm1 log1p parseYear formatPct f s).2
        = CheckResponse.ok false msg pct none := by
  unfold check_model_performance
  by_cases hp : s.pending = []
  · rw [if_pos hp]
    exact ⟨rfl, _, _, rfl⟩
  · rw [if_neg hp]
    rcases h with h | ⟨a, hm, hle⟩
    · exact absurd h hp
    · rw [hm]
      dsimp only
      rw [if_neg (not_lt.mpr hle)]
      exact ⟨rfl, _, _, rfl⟩

/-- C6 witness: the no-pending-feedback call on the concrete idle state. -/
theorem check_stable_keeps_dataset_witness :
    (check_model_performance cPredict cExpm1 cLog1p cParseYear cFormat
        noFaults idleState).1 = idleState ∧
    ∃ msg pct,
      (check_model_performance cPredict cExpm1 cLog1p cParseYear cFormat
        noFaults idleState).2 = CheckResponse.ok false msg pct none :=
  check_stable_keeps_dataset cPredict cExpm1 cLog1p cParseYear cFormat
    noFaults idleState (Or.inl rfl)

/-! ### C7 — trigger rule -/

/-- The `retrain_triggered` field of a response, when the response has
one. -/
def retrainTriggeredOf : CheckResponse → Option Bool
  | CheckResponse.ok b _ _ _ => some b
  | _ => none

/-- C7: over a non-empty pending set with a model loaded (and the temp write
not raising, so the response is well-formed rather than an HTTP 500), the
response's `retrain_triggered` bit is exactly `threshold < MAPE` where MAPE
is the sklearn mean-absolute-percentage-error of the ground truths against
the pipeline predictions on each pending record's raw input; every
well-formed response reports that same MAPE in `current_mape_pct`; and the
threshold is 0.15. -/
theorem check_triggers_iff_mape_above_threshold (predictOf : ℕ → List ℚ → ℚ)
    (expm1 log1p : ℚ → ℚ) (parseYear : String → Option ℤ)
    (formatPct : ℚ → String) (f : Faults) (s : ApiState) (a : Artifact)
    (h1 : s.pending ≠ []) (h2 : s.model = some a)
    (h3 : f.tempWrite = none) :
    retrainTriggeredOf
        (check_model_performance predictOf expm1 log1p parseYear formatPct f s).2
      = some (decide (ERROR_THRESHOLD_MAPE
          < currentMape predictOf expm1 log1p parseYear s a)) ∧
    (∀ b msg pct nm,
      (check_model_performance predictOf expm1 log1p parseYear formatPct f s).2
        = CheckResponse.ok b msg pct nm →
      pct = some (formatPct
        (currentMape predictOf expm1 log1p parseYear s a))) ∧
    ERROR_THRESHOLD_MAPE = 15 / 100 := by
  have hnr := run_cycle_not_raised f s h3
  unfold check_model_performance
  rw [if_neg h1, h2]
  dsimp only
  split
  · rename_i hlt
    rcases hres : (run_full_retrain_cycle f s).2 with m | _ | e | e
    · dsimp only
      exact ⟨by simp [retrainTriggeredOf, hlt],
        fun b msg pct nm h => by injection h with v1 v2 v3 v4; exact v3.symm,
        rfl⟩
    · dsimp only
      exact ⟨by simp [retrainTriggeredOf, hlt],
        fun b msg pct nm h => by injection h with v1 v2 v3 v4; exact v3.symm,
        rfl⟩
    · dsimp only
      exact ⟨by simp [retrainTriggeredOf, hlt],
        fun b msg pct nm h => by injection h with v1 v2 v3 v4; exact v3.symm,
        rfl⟩
    · exact absurd hres (hnr e)
  · rename_i hnlt
    refine ⟨by simp [retrainTriggeredOf, hnlt],
      fun b msg pct nm h => by injection h with v1 v2 v3 v4; exact v3.symm,
      rfl⟩

/-- C7 witness: on the concrete base state the MAPE is above the threshold
and the response reports a triggered retrain. -/
theorem check_triggers_iff_mape_above_threshold_witness :
    retrainTriggeredOf
        (check_model_performance cPredict cExpm1 cLog1p cParseYear cFormat
          noFaults baseState).2
      = some (decide (ERROR_THRESHOLD_MAPE
          < currentMape cPredict cExpm1 cLog1p cParseYear baseState
              oldArtifact)) ∧
    (∀ b msg pct nm,
      (check_model_performance cPredict cExpm1 cLog1p cParseYear cFormat
          noFaults baseState).2 = CheckResponse.ok b msg pct nm →
      pct = some (cFormat
        (currentMape cPredict cExpm1 cLog1p cParseYear baseState
          oldArtifact))) ∧
    ERROR_THRESHOLD_MAPE = 15 / 100 :=
  check_triggers_iff_mape_above_threshold cPredict cExpm1 cLog1p cParseYear
    cFormat noFaults baseState oldArtifact (by decide) rfl rfl

/-! ### C9 — feedback lifecycle -/

/-- C9 (amended): feedback records are never deleted and never mutated: every
pre-cycle pending record survives the cycle verbatim, in pending or in
archive, and the archive only grows.  The pending records are archived
exactly when the cycle returns a committed result (the trainer did not raise
and `load_model_safely` reported success — which is weaker than "the trainer
succeeded and the new artifact was loaded"); after a cycle that returns an
error dict or raises, every pending record is still pending. -/
theorem run_full_retrain_cycle_feedback_lifecycle (f : Faults) (s : ApiState) :
    (∀ e, e ∈ s.pending → e ∈ (run_full_retrain_cycle f s).1.pending ∨
      e ∈ (run_full_retrain_cycle f s).1.archived) ∧
    (∀ e, e ∈ s.archived → e ∈ (run_full_retrain_cycle f s).1.archived) ∧
    (((∃ m, (run_full_retrain_cycle f s).2 = RetrainResult.ok m) ∨
        (run_full_retrain_cycle f s).2 = RetrainResult.okNone) →
      (run_full_retrain_cycle f s).1.pending = [] ∧
      (run_full_retrain_cycle f s).1.archived = s.archived ++ s.pending) ∧
    (((∃ m, (run_full_retrain_cycle f s).2 = RetrainResult.errorDict m) ∨
        (∃ m, (run_full_retrain_cycle f s).2 = RetrainResult.raised m)) →
      (run_full_retrain_cycle f s).1.pending = s.pending ∧
      (run_full_retrain_cycle f s).1.archived = s.archived) := by
  rcases run_full_retrain_cycle_archive_dichotomy f s with
    ⟨hp, ha, hok, hnone⟩ | ⟨hp, ha, hres⟩
  · refine ⟨fun e he => Or.inl (hp ▸ he), fun e he => ha ▸ he, ?_,
      fun _ => ⟨hp, ha⟩⟩
    rintro (⟨m, hm⟩ | hm)
    · exact absurd hm (hok m)
    · exact absurd hm hnone
  · refine ⟨fun e he => Or.inr ?_, fun e he => ?_, fun _ => ⟨hp, ha⟩, ?_⟩
    · rw [ha]; exact List.mem_append_right _ he
    · rw [ha]; exact List.mem_append_left _ he
    · rintro (⟨m, hm⟩ | ⟨m, hm⟩) <;> rcases hres with ⟨m', hm'⟩ | hm' <;>
        simp_all

/-- C9 counterexample: the trainer succeeds but loading the new artifact
raises; `load_model_safely` still reports success because the previous model
is in memory, so the cycle archives the pending record even though the new
artifact was never loaded (the active model is still `oldArtifact`),
contradicting "moved to the archive partition only after ... the new
artifact was loaded". -/
theorem feedback_archived_without_new_artifact :
    (run_full_retrain_cycle reloadCrash baseState).1.archived
        = [("feedback_20250101000000_1.json", sampleFeedback)] ∧
    (run_full_retrain_cycle reloadCrash baseState).1.model = some oldArtifact ∧
    oldArtifact ≠ newArtifact ∧
    (run_full_retrain_cycle reloadCrash baseState).2
        = RetrainResult.ok retrainedMetrics :=
  ⟨rfl, rfl, by decide, rfl⟩

/-! ### C8 — prediction pipeline and extra-field stability -/

/-- Looking up a key past an appended suffix that does not bind it. -/
theorem rowLookup_append_of_none (c : String) (l1 l2 : Row)
    (h : rowLookup c l2 = none) :
    rowLookup c (l1 ++ l2) = rowLookup c l1 := by
  induction l1 with
  | nil => simpa [rowLookup] using h
  | cons p r ih =>
    obtain ⟨c', v⟩ := p
    by_cases hc : c' = c <;> simp [rowLookup, hc, ih]

/-- A key bound by none of the pairs looks up to `none`. -/
theorem rowLookup_eq_none (c : String) (l : Row)
    (h : ∀ p ∈ l, p.1 ≠ c) :
    rowLookup c l = none := by
  induction l with
  | nil => rfl
  | cons p r ih =>
    obtain ⟨c', v⟩ := p
    have hc : c' ≠ c := h (c', v) (List.mem_cons_self _ _)
    simp only [rowLookup, if_neg hc]
    exact ih (fun q hq => h q (List.mem_cons_of_mem _ hq))

/-- Pydantic validation reads only the declared fields, so appending fields
with names outside the model's declaration leaves its result unchanged. -/
theorem parseHouseData_append_extras (body extras : Row)
    (hx : ∀ p ∈ extras, p.1 ∉ houseFieldNames) :
    parseHouseData (body ++ extras) = parseHouseData body := by
  have key : ∀ c, c ∈ houseFieldNames →
      rowLookup c (body ++ extras) = rowLookup c body := by
    intro c hc
    refine rowLookup_append_of_none c body extras
      (rowLookup_eq_none c extras (fun p hp hpc => hx p hp (hpc ▸ hc)))
  unfold parseHouseData fieldQ fieldZ fieldS
  rw [key "id" (by decide), key "date" (by decide),
    key "bedrooms" (by decide), key "bathrooms" (by decide),
    key "sqft_living" (by decide), key "sqft_lot" (by decide),
    key "floors" (by decide), key "waterfront" (by decide),
    key "view" (by decide), key "condition" (by decide),
    key "grade" (by decide), key "sqft_above" (by decide),
    key "sqft_basement" (by decide), key "yr_built" (by decide),
    key "yr_renovated" (by decide), key "zipcode" (by decide),
    key "lat" (by decide), key "long" (by decide),
    key "Mean_Income" (by decide),
    key "Education_Bachelors_or_Higher" (by decide),
    key "Population_Density" (by decide)]

/-- C8: for a valid body, `predict` succeeds and its price is the inverse
log transform (`expm1`) of the model applied to the engineered feature row
reindexed onto the stored schema (schema columns missing from the row read
as 0, row columns outside the schema are dropped by the reindex); and
appending extra, unrecognized fields to the body leaves the whole response
unchanged. -/
theorem predict_price_schema_reindex (predictOf : ℕ → List ℚ → ℚ)
    (expm1 log1p : ℚ → ℚ) (parseYear : String → Option ℤ)
    (formatMoney : ℚ → String) (s : ApiState) (body extras : Row)
    (hd : HouseData) (a : Artifact)
    (h0 : parseHouseData body = some hd) (h1 : s.model = some a)
    (hx : ∀ p ∈ extras, p.1 ∉ houseFieldNames) :
    predict_price predictOf expm1 log1p parseYear formatMoney s
        (body ++ extras)
      = predict_price predictOf expm1 log1p parseYear formatMoney s body ∧
    ∃ priceUsd margin,
      predict_price predictOf expm1 log1p parseYear formatMoney s body
        = PredictResult.ok "Predição realizada com sucesso."
            (expm1 (predictOf a.modelId (featureVector s.modelFeatures
              (engineer_features log1p parseYear (houseToRow hd)))))
            priceUsd margin := by
  constructor
  · unfold predict_price
    rw [parseHouseData_append_extras body extras hx]
  · unfold predict_price
    rw [h0]
    dsimp only
    rw [h1]
    dsimp only
    exact ⟨"$" ++ formatMoney (pipelinePrice predictOf expm1 log1p parseYear
        s a (houseToRow hd)),
      s.modelMetrics.maeFormatted, by simp [pipelinePrice]⟩

/-- Round trip: validating the row obtained from a validated record gives
back the record (used to discharge the witness's hypothesis). -/
theorem parseHouseData_houseToRow (hd : HouseData) :
    parseHouseData (houseToRow hd) = some hd := by
  simp [parseHouseData, houseToRow, rowLookup, fieldQ, fieldZ, fieldS]

/-- Unrecognized fields appended to a concrete request body. -/
def extraFields : Row :=
  [("extra_field", CellValue.num 7), ("note", CellValue.str "hi")]

/-- C8 witness: the concrete sample body, with and without extra fields. -/
theorem predict_price_schema_reindex_witness :
    predict_price cPredict cExpm1 cLog1p cParseYear cFormat baseState
        (houseToRow sampleHouse ++ extraFields)
      = predict_price cPredict cExpm1 cLog1p cParseYear cFormat baseState
          (houseToRow sampleHouse) ∧
    ∃ priceUsd margin,
      predict_price cPredict cExpm1 cLog1p cParseYear cFormat baseState
          (houseToRow sampleHouse)
        = PredictResult.ok "Predição realizada com sucesso."
            (cExpm1 (cPredict oldArtifact.modelId
              (featureVector baseState.modelFeatures
                (engineer_features cLog1p cParseYear
                  (houseToRow sampleHouse)))))
            priceUsd margin :=
  predict_price_schema_reindex cPredict cExpm1 cLog1p cParseYear cFormat
    baseState (houseToRow sampleHouse) extraFields sampleHouse oldArtifact
    (parseHouseData_houseToRow sampleHouse) rfl (by decide)

/-! ### C10 — feedback file keyed by (second, id) is overwritten -/

/-- Content of the pending file with a given name, if present. -/
def lookupFile (name : String) :
    List (String × FeedbackRecord) → Option FeedbackRecord
  | [] => none
  | (n, r) :: rest => if n = name then some r else lookupFile name rest

/-- Number of pending files bearing a given name. -/
def countFile (name : String) :
    List (String × FeedbackRecord) → ℕ
  | [] => 0
  | (n, _) :: rest => (if n = name then 1 else 0) + countFile name rest

/-- After `open(name, 'w')`, the store holds the new content under `name`. -/
theorem writeFeedbackFile_lookup (name : String) (fb : FeedbackRecord)
    (l : List (String × FeedbackRecord)) :
    lookupFile name (writeFeedbackFile name fb l) = some fb := by
  induction l with
  | nil => simp [writeFeedbackFile, lookupFile]
  | cons p rest ih =>
    obtain ⟨n, r⟩ := p
    by_cases hn : n = name <;>
      simp [writeFeedbackFile, lookupFile, hn, ih]

/-- Writing to a name held by at most one file leaves exactly one file with
that name. -/
theorem writeFeedbackFile_count (name : String) (fb : FeedbackRecord)
    (l : List (String × FeedbackRecord)) (h : countFile name l ≤ 1) :
    countFile name (writeFeedbackFile name fb l) = 1 := by
  induction l with
  | nil => simp [writeFeedbackFile, countFile]
  | cons p rest ih =>
    obtain ⟨n, r⟩ := p
    by_cases hn : n = name
    · subst hn
      simp [writeFeedbackFile, countFile] at h ⊢
      omega
    · simp only [writeFeedbackFile, countFile, if_neg hn, zero_add] at h ⊢
      exact ih h

/-- C10: two accepted feedback submissions whose ids are equal and whose
arrival timestamps format to the same second target the same file path; the
second silently truncates the first, leaving exactly one pending file with
that name, holding the second record. -/
theorem receive_feedback_same_second_overwrites (ts1 ts2 : String)
    (fb1 fb2 : FeedbackRecord) (s : ApiState)
    (hts : ts1 = ts2) (hid : fb1.house.id = fb2.house.id)
    (hfresh : countFile (feedbackFileName ts1 fb1) s.pending = 0) :
    feedbackFileName ts2 fb2 = feedbackFileName ts1 fb1 ∧
    (receive_feedback ts2 fb2 (receive_feedback ts1 fb1 s).1).2
      = (receive_feedback ts1 fb1 s).2 ∧
    countFile (feedbackFileName ts1 fb1)
      ((receive_feedback ts2 fb2 (receive_feedback ts1 fb1 s).1).1).pending
      = 1 ∧
    lookupFile (feedbackFileName ts1 fb1)
      ((receive_feedback ts2 fb2 (receive_feedback ts1 fb1 s).1).1).pending
      = some fb2 := by
  have hname : feedbackFileName ts2 fb2 = feedbackFileName ts1 fb1 := by
    unfold feedbackFileName
    rw [← hts, ← hid]
  refine ⟨hname, ?_, ?_, ?_⟩
  · show feedbackFileName ts2 fb2 = feedbackFileName ts1 fb1
    exact hname
  · show countFile (feedbackFileName ts1 fb1)
      (writeFeedbackFile (feedbackFileName ts2 fb2) fb2
        (writeFeedbackFile (feedbackFileName ts1 fb1) fb1 s.pending)) = 1
    rw [hname]
    exact writeFeedbackFile_count _ fb2 _
      (le_of_eq (writeFeedbackFile_count _ fb1 _ (by omega)))
  · show lookupFile (feedbackFileName ts1 fb1)
      (writeFeedbackFile (feedbackFileName ts2 fb2) fb2
        (writeFeedbackFile (feedbackFileName ts1 fb1) fb1 s.pending))
      = some fb2
    rw [hname]
    exact writeFeedbackFile_lookup _ fb2 _

/-- A second feedback record for the same house, arriving within the same
second. -/
def secondFeedback : FeedbackRecord := ⟨sampleHouse, 150⟩

/-- C10 witness: two concrete submissions in the same second with the same
id leave one pending file holding the second record. -/
theorem receive_feedback_same_second_overwrites_witness :
    feedbackFileName "20250101120000" secondFeedback
      = feedbackFileName "20250101120000" sampleFeedback ∧
    (receive_feedback "20250101120000" secondFeedback
        (receive_feedback "20250101120000" sampleFeedback idleState).1).2
      = (receive_feedback "20250101120000" sampleFeedback idleState).2 ∧
    countFile (feedbackFileName "20250101120000" sampleFeedback)
      ((receive_feedback "20250101120000" secondFeedback
        (receive_feedback "20250101120000" sampleFeedback idleState).1).1).pending
      = 1 ∧
    lookupFile (feedbackFileName "20250101120000" sampleFeedback)
      ((receive_feedback "20250101120000" secondFeedback
        (receive_feedback "20250101120000" sampleFeedback idleState).1).1).pending
      = some secondFeedback :=
  receive_feedback_same_second_overwrites "20250101120000" "20250101120000"
    sampleFeedback secondFeedback idleState rfl rfl rfl

end PriceApi
